import Mathlib

/-!
Shallow embedding of the two source modules of `eloquent-ffmpeg`
(`src/string.ts` and `src/types.ts`) and proofs about the claims of the
specification.

Modelling conventions:
* JavaScript numbers are modelled by `JNum`: NaN, the two signed
  infinities, and finite values as exact rationals.  Double rounding and
  the negative zero are not modelled; every value appearing in the claims
  is small enough to be exactly representable in a double, so the
  idealisation is faithful on all inputs the theorems evaluate.
* JavaScript values reachable by the code under scrutiny are modelled by
  `JSVal` (undefined, null, booleans, numbers, strings and plain objects).
  `Date` values and arrays nested inside records are not modelled; no
  claim mentions them.
* String-to-number coercion (`+s` / `Number(s)`) is modelled by
  `parseNumber`, covering the decimal and `Infinity` forms.  The
  hexadecimal/octal/binary literal forms accepted by JavaScript are not
  modelled; the probe output and the claims never use them.
* Property access `info.x` on a record is modelled by `prop info "x"`,
  which yields `undefined` when the key is absent, as in JavaScript.
-/

set_option maxRecDepth 4000

attribute [local semireducible] Rat.mul Rat.add Rat.inv Rat.sub Rat.ofScientific

namespace EloquentFFmpeg

/-- Idealised JavaScript number: NaN, a signed infinity (`inf true` is
negative infinity), or a finite value as an exact rational. -/
inductive JNum where
  | nan : JNum
  | inf : Bool → JNum
  | fin : ℚ → JNum
deriving DecidableEq, Repr

/-- JavaScript multiplication on the model: NaN propagates, an infinity
times zero is NaN, otherwise signs combine. -/
def jmul : JNum → JNum → JNum
  | .nan, _ => .nan
  | _, .nan => .nan
  | .inf s, .inf t => .inf (Bool.xor s t)
  | .inf s, .fin q => if q = 0 then .nan else .inf (Bool.xor s (decide (q < 0)))
  | .fin q, .inf s => if q = 0 then .nan else .inf (Bool.xor s (decide (q < 0)))
  | .fin a, .fin b => .fin (a * b)

/-- JavaScript addition on the model: NaN propagates, opposite infinities
give NaN. -/
def jadd : JNum → JNum → JNum
  | .nan, _ => .nan
  | _, .nan => .nan
  | .inf s, .inf t => if s = t then .inf s else .nan
  | .inf s, .fin _ => .inf s
  | .fin _, .inf t => .inf t
  | .fin a, .fin b => .fin (a + b)

/-- JavaScript division on the model: NaN propagates, `inf/inf` and `0/0`
are NaN, a nonzero finite value divided by zero is a signed infinity
(the negative zero is not modelled, so the denominator zero counts as
positive). -/
def jdiv : JNum → JNum → JNum
  | .nan, _ => .nan
  | _, .nan => .nan
  | .inf _, .inf _ => .nan
  | .inf s, .fin q => .inf (Bool.xor s (decide (q < 0)))
  | .fin _, .inf _ => .fin 0
  | .fin a, .fin b =>
    if b = 0 then (if a = 0 then .nan else .inf (decide (a < 0)))
    else .fin (a / b)

/-- `Math.floor` on the model: NaN and infinities pass through. -/
def jfloor : JNum → JNum
  | .nan => .nan
  | .inf b => .inf b
  | .fin q => .fin ((⌊q⌋ : ℤ) : ℚ)

/-- Truncation toward zero of a rational, as used by the ToInt32/ToUint32
abstract operations of JavaScript. -/
def jtrunc (q : ℚ) : ℤ := if q < 0 then ⌈q⌉ else ⌊q⌋

/-- The ToUint32 abstract operation (the `>>> 0` coercion): NaN and the
infinities go to 0, finite values are truncated toward zero and reduced
modulo `2 ^ 32`. -/
def toUint32 : JNum → ℕ
  | .fin q => (jtrunc q % 2 ^ 32).toNat
  | _ => 0

/-- The ToInt32 abstract operation (the `| 0` coercion): like ToUint32 but
landing in the signed 32-bit range. -/
def toInt32 (n : JNum) : ℤ :=
  if toUint32 n < 2 ^ 31 then (toUint32 n : ℤ) else (toUint32 n : ℤ) - 2 ^ 32

/-- Whether the model number is finite. -/
def JNum.isFinite : JNum → Bool
  | .fin _ => true
  | _ => false

/-- Decimal digit test, on codepoints. -/
def isDigit (c : Char) : Bool := 48 ≤ c.toNat && c.toNat ≤ 57

/-- Numeric value of a decimal digit. -/
def digitVal (c : Char) : ℕ := c.toNat - 48

/-- Value of a list of decimal digits, most significant first. -/
def digitsToNat (l : List Char) : ℕ := l.foldl (fun n c => 10 * n + digitVal c) 0

/-- Split a character list into its leading run of decimal digits and the
rest. -/
def splitDigits : List Char → List Char × List Char
  | [] => ([], [])
  | c :: r =>
    if isDigit c then
      let p := splitDigits r
      (c :: p.1, p.2)
    else ([], c :: r)

/-- Parse a mandatory nonempty digit run filling the whole input, for the
exponent part of a JavaScript numeric literal. -/
def expDigits (l : List Char) : Option ℤ :=
  let p := splitDigits l
  if p.1 = [] ∨ p.2 ≠ [] then none else some ((digitsToNat p.1 : ℤ))

/-- Parse the optional exponent suffix of a JavaScript numeric literal;
`none` means the text is not a valid literal tail. -/
def parseExpPart : List Char → Option ℤ
  | [] => some 0
  | c :: r =>
    if c = 'e' ∨ c = 'E' then
      match r with
      | '+' :: r2 => expDigits r2
      | '-' :: r2 => (expDigits r2).map Neg.neg
      | _ => expDigits r
    else none

/-- Parse an unsigned JavaScript decimal literal (digits, optional point,
optional exponent), requiring the whole input to be consumed. -/
def parseDecimal (l : List Char) : Option ℚ :=
  let ip := splitDigits l
  match ip.2 with
  | '.' :: r2 =>
    let fp := splitDigits r2
    if ip.1 = [] ∧ fp.1 = [] then none
    else (parseExpPart fp.2).map fun e =>
      ((digitsToNat ip.1 : ℚ) + (digitsToNat fp.1 : ℚ) / (10 : ℚ) ^ fp.1.length) * (10 : ℚ) ^ e
  | _ =>
    if ip.1 = [] then none
    else (parseExpPart ip.2).map fun e => (digitsToNat ip.1 : ℚ) * (10 : ℚ) ^ e

/-- Strip surrounding whitespace, as JavaScript string-to-number coercion
does before parsing. -/
def trimWs (l : List Char) : List Char :=
  ((l.dropWhile Char.isWhitespace).reverse.dropWhile Char.isWhitespace).reverse

/-- Parse an already-trimmed character list as a JavaScript number: the
empty text is 0, `Infinity` with an optional sign is the corresponding
infinity, otherwise a signed decimal literal, and anything else is NaN. -/
def parseTrimmed : List Char → JNum
  | [] => .fin 0
  | l =>
    let sb : Bool × List Char := match l with
      | '+' :: r => (false, r)
      | '-' :: r => (true, r)
      | _ => (false, l)
    if sb.2 = "Infinity".data then .inf sb.1
    else match parseDecimal sb.2 with
      | some q => .fin (if sb.1 then -q else q)
      | none => .nan

/-- JavaScript string-to-number coercion on character lists. -/
def parseNumChars (l : List Char) : JNum := parseTrimmed (trimWs l)

/-- JavaScript string-to-number coercion (unary `+` on a string). -/
def parseNumber (s : String) : JNum := parseNumChars s.data

/-- Left-pad a numeral with zeros to the requested width. -/
def padZeros (k : ℕ) (s : String) : String :=
  String.mk (List.replicate (k - s.length) '0') ++ s

/-- Least `k` (up to the fuel) such that the denominator divides `10 ^ k`;
used to print a rational as the finite decimal JavaScript would print. -/
def findDecExpAux (den : ℕ) : ℕ → ℕ → Option ℕ
  | _, 0 => none
  | k, fuel + 1 => if den ∣ 10 ^ k then some k else findDecExpAux den (k + 1) fuel

/-- JavaScript `String()` conversion of a model number.  Integers and
finitely-representable decimals print exactly as JavaScript prints them
(the scientific notation used beyond `1e21` is not modelled; no claim
reaches it).  A rational whose denominator is not 2-5-smooth cannot arise
from an exact double, so its rendering is arbitrary. -/
def jnumToString : JNum → String
  | .nan => "NaN"
  | .inf b => if b then "-Infinity" else "Infinity"
  | .fin q =>
    if q.den = 1 then Int.repr q.num
    else match findDecExpAux q.den 0 400 with
      | some k =>
        let n := q.num.natAbs * (10 ^ k / q.den)
        (if q.num < 0 then "-" else "") ++ Nat.repr (n / 10 ^ k) ++ "." ++
          padZeros k (Nat.repr (n % 10 ^ k))
      | none => Int.repr q.num ++ "/" ++ Nat.repr q.den

/-- JavaScript values reachable by the code under scrutiny. -/
inductive JSVal where
  | undef : JSVal
  | null : JSVal
  | bool : Bool → JSVal
  | num : JNum → JSVal
  | str : String → JSVal
  | obj : List (String × JSVal) → JSVal

/-- JavaScript string coercion (template-literal `${v}` / `'' + v`).  A
plain object stringifies to `[object Object]`. -/
def jsToString : JSVal → String
  | .undef => "undefined"
  | .null => "null"
  | .bool b => if b then "true" else "false"
  | .num n => jnumToString n
  | .str s => s
  | .obj _ => "[object Object]"

/-- JavaScript number coercion (unary `+` / the implicit ToNumber of the
arithmetic and shift operators).  An object goes through its primitive
string form. -/
def toNumber : JSVal → JNum
  | .undef => .nan
  | .null => .fin 0
  | .bool b => .fin (if b then 1 else 0)
  | .num n => n
  | .str s => parseNumber s
  | .obj _ => parseNumber "[object Object]"

/-- JavaScript truthiness. -/
def truthy : JSVal → Bool
  | .undef => false
  | .null => false
  | .bool b => b
  | .num .nan => false
  | .num (.inf _) => true
  | .num (.fin q) => decide (q ≠ 0)
  | .str s => decide (s ≠ "")
  | .obj _ => true

/-- `isNullish` from `src/utils.ts`: `null` or `undefined`. -/
def isNullish : JSVal → Bool
  | .undef => true
  | .null => true
  | _ => false

/-! ## The `src/string.ts` module -/

/-- The backslash character. -/
def backslashChar : Char := Char.ofNat 92

/-- The single-quote character. -/
def quoteChar : Char := Char.ofNat 39

/-- The space character. -/
def spaceChar : Char := Char.ofNat 32

/-- Character class of the regex in `escapeFilterValue`. -/
def filterValueChars : List Char := [backslashChar, quoteChar, ':']

/-- Character class of the regex in `escapeFilterDescription`. -/
def filterDescriptionChars : List Char := [backslashChar, quoteChar, '[', ']', ',', ';']

/-- Character class of the regex in `escapeConcatFile`. -/
def concatFileChars : List Char := [backslashChar, quoteChar, spaceChar]

/-- Character class of the regex in `escapeTeeComponent`. -/
def teeComponentChars : List Char := [backslashChar, quoteChar, spaceChar, '|', '[', ']']

/-- `s.replace(/[set]/g, (c) => '\\' + c)`: prefix every character of the
set with a backslash, leave the rest unchanged. -/
def escList (set : List Char) : List Char → List Char
  | [] => []
  | c :: r => (if c ∈ set then [backslashChar, c] else [c]) ++ escList set r

/-- `escapeFilterValue` from `src/string.ts`. -/
def escapeFilterValue (s : String) : String := String.mk (escList filterValueChars s.data)

/-- `escapeFilterDescription` from `src/string.ts`. -/
def escapeFilterDescription (s : String) : String :=
  String.mk (escList filterDescriptionChars s.data)

/-- `escapeConcatFile` from `src/string.ts`. -/
def escapeConcatFile (s : String) : String := String.mk (escList concatFileChars s.data)

/-- `escapeTeeComponent` from `src/string.ts`. -/
def escapeTeeComponent (s : String) : String := String.mk (escList teeComponentChars s.data)

/-- `stringifyValue` from `src/string.ts`.  `Date` values are not in
`JSVal` (no claim uses them), so this is the string coercion. -/
def stringifyValue (v : JSVal) : String := jsToString v

/-- `stringifyArrayColonSeparated` from `src/string.ts`. -/
def stringifyArrayColonSeparated (array : List JSVal) : String :=
  String.intercalate ":"
    ((array.filter (fun v => !(isNullish v))).map (fun v => escapeFilterValue (stringifyValue v)))

/-- `stringifyObjectColonSeparated` from `src/string.ts`. -/
def stringifyObjectColonSeparated (object : List (String × JSVal)) : String :=
  String.intercalate ":"
    ((object.filter (fun kv => !(isNullish kv.2))).map
      (fun kv => kv.1 ++ "=" ++ escapeFilterValue (stringifyValue kv.2)))

/-- The `options` argument of `stringifyFilterDescription`: absent
(`undefined`), `null`, an array, or a record. -/
inductive FilterParams where
  | undef : FilterParams
  | null : FilterParams
  | arr : List JSVal → FilterParams
  | obj : List (String × JSVal) → FilterParams

/-- Tail of `stringifyFilterDescription` after the options have been
rendered: an empty rendering returns the bare name. -/
def renderTail (filter : String) (opts : String) : String :=
  if opts = "" then filter else filter ++ "=" ++ escapeFilterDescription opts

/-- `stringifyFilterDescription` from `src/string.ts`. -/
def stringifyFilterDescription (filter : String) (options : FilterParams) : String :=
  match options with
  | .undef => filter
  | .null => filter
  | .arr a => renderTail filter (stringifyArrayColonSeparated a)
  | .obj o => renderTail filter (stringifyObjectColonSeparated o)

/-- The five capture groups of `TIMESTAMP_REGEXP`
(`/(-?)([0-9]{2}:)?([0-9]{2}):([0-9]{2})(\.[0-9]+)?/`); `none` models an
unmatched optional group (`undefined` in JavaScript). -/
structure TsGroups where
  minus : String
  hh : Option String
  mm : String
  ss : String
  frac : Option String
deriving DecidableEq, Repr

/-- Match the optional fractional group `(\.[0-9]+)?` at the front of the
remaining input (greedy, as the regex engine is). -/
def fracGroup : List Char → Option String
  | '.' :: r =>
    let p := splitDigits r
    if p.1 = [] then none else some (String.mk ('.' :: p.1))
  | _ => none

/-- Match `([0-9]{2}):([0-9]{2})(\.[0-9]+)?` (the regex with the optional
hour group skipped) at the front of the input. -/
def matchNoHH (minus : String) (l : List Char) : Option TsGroups :=
  match l with
  | a :: b :: ':' :: c :: d :: rest =>
    if isDigit a && isDigit b && isDigit c && isDigit d then
      some ⟨minus, none, String.mk [a, b], String.mk [c, d], fracGroup rest⟩
    else none
  | _ => none

/-- Try `TIMESTAMP_REGEXP` at the current position: the optional sign,
then (as the backtracking engine does) first with the hour group and,
failing that, without it. -/
def matchHere (l : List Char) : Option TsGroups :=
  let ml : String × List Char := match l with
    | '-' :: r => ("-", r)
    | _ => ("", l)
  match ml.2 with
  | a :: b :: ':' :: c :: d :: ':' :: e :: f :: rest =>
    if isDigit a && isDigit b && isDigit c && isDigit d && isDigit e && isDigit f then
      some ⟨ml.1, some (String.mk [a, b, ':']), String.mk [c, d], String.mk [e, f],
        fracGroup rest⟩
    else matchNoHH ml.1 ml.2
  | _ => matchNoHH ml.1 ml.2

/-- Unanchored search with `TIMESTAMP_REGEXP` (`String.prototype.match`):
the leftmost position where the pattern matches wins. -/
def searchTs : List Char → Option TsGroups
  | [] => none
  | c :: rest =>
    match matchHere (c :: rest) with
    | some g => some g
    | none => searchTs rest

/-- `parseTimestamp` from `src/string.ts`. -/
def parseTimestamp (value : String) : Option JNum :=
  match searchTs value.data with
  | none => none
  | some g =>
    let sign : JNum := .fin (if g.minus = "-" then -1 else 1)
    let hours : JNum := match g.hh with
      | some hh => jmul (parseNumber (hh.dropRight 1)) (.fin 3600000)
      | none => .fin 0
    let decimal : JNum := match g.frac with
      | some m => jmul (parseNumber m) (.fin 1000)
      | none => .fin 0
    some (jmul sign
      (jadd (jadd (jadd hours (jmul (parseNumber g.mm) (.fin 60000)))
        (jmul (parseNumber g.ss) (.fin 1000))) decimal))

/-! ## The `src/types.ts` module -/

/-- A JavaScript record, as a key-value list in insertion order.  Keys are
unique in the probe output this module consumes. -/
abbrev JSObj := List (String × JSVal)

/-- Property access `o.k`: `undefined` when the key is absent. -/
def prop (o : JSObj) (k : String) : JSVal :=
  match o.find? (fun p => p.1 == k) with
  | some p => p.2
  | none => JSVal.undef

/-- `Object.entries` of a value: the fields of a plain object, empty for
the primitives this module ever passes (the character-indexed entries of
a string are not modelled; no claim uses them). -/
def entriesOf (v : JSVal) : List (String × JSVal) :=
  match v with
  | .obj l => l
  | _ => []

/-- The tag mapping, as a key-value list in insertion order.  The `Map`
deduplication of repeated keys is not modelled; probe output never
repeats a key. -/
abbrev Tags := List (String × String)

/-- `toLowerCase` from `src/types.ts`: lower-case the key, coerce the
value to a string. -/
def toLowerCase (kv : String × JSVal) : String × String :=
  (kv.1.toLower, jsToString kv.2)

/-- `tags` from `src/types.ts`: `Object.entries(o || {}).map(toLowerCase)`. -/
def tags (o : JSVal) : Tags :=
  (entriesOf (if truthy o then o else .obj [])).map toLowerCase

/-- `codecTag` from `src/types.ts`: `null` for a falsy source or the
`[0][0][0][0]` sentinel, otherwise the string form. -/
def codecTag (o : JSVal) : Option String :=
  let s := jsToString o
  if !(truthy o) || s == "[0][0][0][0]" then none else some s

/-- `int` from `src/types.ts`: `Math.floor(+x)`. -/
def int (x : JSVal) : JNum := jfloor (toNumber x)

/-- `String.prototype.split('/')` on character lists. -/
def splitSlash : List Char → List (List Char)
  | [] => [[]]
  | '/' :: r => [] :: splitSlash r
  | c :: r =>
    match splitSlash r with
    | h :: t => (c :: h) :: t
    | [] => [[c]]

/-- `f64` from `src/types.ts`: coerce to text, split on `/`; a missing or
empty part (both falsy in `!x`) gives -1, a part that coerces to NaN
(`a !== a` in the source) gives -1, otherwise the quotient. -/
def f64 (fraction : JSVal) : JNum :=
  let parts := splitSlash (jsToString fraction).data
  let x := parts.getD 0 []
  let y := parts.getD 1 []
  if x = [] ∨ y = [] then .fin (-1)
  else
    let a := parseNumChars x
    let b := parseNumChars y
    if a = .nan ∨ b = .nan then .fin (-1)
    else jdiv a b

/-- The fields initialised by the `BaseStream` constructor. -/
structure BaseFields where
  index : ℕ
  codecName : String
  codecTag : Option String
  start : ℤ
  duration : ℤ
  bitrate : JNum
  tags : Tags
deriving DecidableEq, Repr

/-- The `BaseStream` constructor body: `index >>> 0`, string coercion of
`codec_long_name`, the codec tag kept only when truthy, `+t * 1000 | 0`
for the two time fields, `int` for the bitrate, and the tag mapping. -/
def mkBaseFields (info : JSObj) : BaseFields :=
  { index := toUint32 (toNumber (prop info "index"))
    codecName := jsToString (prop info "codec_long_name")
    codecTag := (codecTag (prop info "codec_tag_string")).filter (fun s => s ≠ "")
    start := toInt32 (jmul (toNumber (prop info "start_time")) (.fin 1000))
    duration := toInt32 (jmul (toNumber (prop info "duration")) (.fin 1000))
    bitrate := int (prop info "bit_rate")
    tags := tags (prop info "tags") }

/-- `VideoStream` from `src/types.ts`.  The source field
`display_aspect_ratio` is stored here as `aspect` (a faithful rename of
the class field `aspectRatio`). -/
structure VideoStream where
  base : BaseFields
  codec : String
  profile : Option String
  width : JNum
  height : JNum
  codedWidth : JNum
  codedHeight : JNum
  aspect : String
  pixelFormat : String
  level : ℕ
  colorRange : String
  colorSpace : String
  colorTransfer : String
  colorPrimaries : String
  chromaLocation : String
  fieldOrder : String
  frameRate : JNum
  avgFrameRate : JNum
  bitsPerRawSample : ℕ
deriving DecidableEq, Repr

/-- The `VideoStream` constructor body. -/
def mkVideoStream (info : JSObj) : VideoStream :=
  { base := mkBaseFields info
    codec := jsToString (prop info "codec_name")
    profile :=
      if truthy (prop info "profile") then some ((jsToString (prop info "profile")).toLower)
      else none
    width := int (prop info "width")
    height := int (prop info "height")
    codedWidth := int (prop info "coded_width")
    codedHeight := int (prop info "coded_height")
    aspect := jsToString (prop info "display_aspect_ratio")
    pixelFormat := jsToString (prop info "pixel_format")
    level := toUint32 (toNumber (prop info "level"))
    colorRange := jsToString (prop info "color_range")
    colorSpace := jsToString (prop info "color_space")
    colorTransfer := jsToString (prop info "color_transfer")
    colorPrimaries := jsToString (prop info "color_primaries")
    chromaLocation := jsToString (prop info "chroma_location")
    fieldOrder := jsToString (prop info "field_order")
    frameRate := f64 (prop info "frame_rate")
    avgFrameRate := f64 (prop info "avg_frame_rate")
    bitsPerRawSample := toUint32 (toNumber (prop info "bits_per_raw_sample")) }

/-- `AudioStream` from `src/types.ts`. -/
structure AudioStream where
  base : BaseFields
  codec : String
  profile : Option String
  sampleFormat : String
  sampleRate : ℕ
  channels : ℕ
  channelLayout : String
  bitsPerSample : ℕ
deriving DecidableEq, Repr

/-- The `AudioStream` constructor body. -/
def mkAudioStream (info : JSObj) : AudioStream :=
  { base := mkBaseFields info
    codec := jsToString (prop info "codec_name")
    profile :=
      if truthy (prop info "profile") then some ((jsToString (prop info "profile")).toLower)
      else none
    sampleFormat := jsToString (prop info "sample_fmt")
    sampleRate := toUint32 (toNumber (prop info "sample_rate"))
    channels := toUint32 (toNumber (prop info "channels"))
    channelLayout := jsToString (prop info "channel_layout")
    bitsPerSample := toUint32 (toNumber (prop info "bits_per_sample")) }

/-- `SubtitleStream` from `src/types.ts`. -/
structure SubtitleStream where
  base : BaseFields
  codec : String
deriving DecidableEq, Repr

/-- The `SubtitleStream` constructor body. -/
def mkSubtitleStream (info : JSObj) : SubtitleStream :=
  { base := mkBaseFields info
    codec := jsToString (prop info "codec_name") }

/-- `DataStream` from `src/types.ts`. -/
structure DataStream where
  base : BaseFields
  codec : String
deriving DecidableEq, Repr

/-- The `DataStream` constructor body. -/
def mkDataStream (info : JSObj) : DataStream :=
  { base := mkBaseFields info
    codec := jsToString (prop info "codec_name") }

/-- The `Stream` union of `src/types.ts` as a sum. -/
inductive Stream where
  | videoV : VideoStream → Stream
  | audioV : AudioStream → Stream
  | subtitleV : SubtitleStream → Stream
  | dataV : DataStream → Stream
deriving DecidableEq, Repr

/-- The `type` discriminant of a stream variant. -/
def Stream.kind : Stream → String
  | .videoV _ => "video"
  | .audioV _ => "audio"
  | .subtitleV _ => "subtitle"
  | .dataV _ => "data"

/-- The fields shared through `BaseStream`. -/
def Stream.base : Stream → BaseFields
  | .videoV s => s.base
  | .audioV s => s.base
  | .subtitleV s => s.base
  | .dataV s => s.base

/-- `toStream` from `src/types.ts`: dispatch on the string coercion of
`codec_type` (the source binds `'' + streamInfo.codec_type` once; the
repeated pure call here is equivalent). -/
def toStream (streamInfo : JSObj) : Stream :=
  if jsToString (prop streamInfo "codec_type") = "video" then
    .videoV (mkVideoStream streamInfo)
  else if jsToString (prop streamInfo "codec_type") = "audio" then
    .audioV (mkAudioStream streamInfo)
  else if jsToString (prop streamInfo "codec_type") = "subtitle" then
    .subtitleV (mkSubtitleStream streamInfo)
  else .dataV (mkDataStream streamInfo)

/-- `Chapter` from `src/types.ts`.  The source field `end` is stored as
`endTime` (`end` is a Lean keyword). -/
structure Chapter where
  id : ℕ
  start : ℤ
  endTime : ℤ
  tags : Tags
deriving DecidableEq, Repr

/-- The `Chapter` constructor body: `id >>> 0`, `start * 1000000 | 0`,
`end * 1000000 | 0` (the multiplication coerces with ToNumber), and the
tag mapping. -/
def mkChapter (info : JSObj) : Chapter :=
  { id := toUint32 (toNumber (prop info "id"))
    start := toInt32 (jmul (toNumber (prop info "start")) (.fin 1000000))
    endTime := toInt32 (jmul (toNumber (prop info "end")) (.fin 1000000))
    tags := tags (prop info "tags") }

/-- The shape of the probe record the `ProbeResult` constructor reads:
`info.format`, `info.streams`, `info.chapters`.  (On a record missing
these the original code would throw while dereferencing; the claims only
concern records of this shape.) -/
structure ProbeInfo where
  format : JSObj
  streams : List JSObj
  chapters : List JSObj

/-- `ProbeResult` from `src/types.ts` (the private back-reference used by
`unwrap` is the constructor argument itself and is not a field). -/
structure ProbeResult where
  format : String
  streams : List Stream
  chapters : List Chapter
  bitrate : JNum
  duration : ℤ
  start : ℤ
  score : ℤ
  tags : Tags
deriving DecidableEq, Repr

/-- The `ProbeResult` constructor body. -/
def mkProbeResult (info : ProbeInfo) : ProbeResult :=
  { format := jsToString (prop info.format "format_name")
    start := toInt32 (jmul (toNumber (prop info.format "start_time")) (.fin 1000))
    duration := toInt32 (jmul (toNumber (prop info.format "duration")) (.fin 1000))
    bitrate := int (prop info.format "bit_rate")
    score := toInt32 (toNumber (prop info.format "probe_score"))
    tags := tags (prop info.format "tags")
    streams := info.streams.map toStream
    chapters := info.chapters.map mkChapter }

/-! ## Helper lemmas -/

/-- Escaping distributes over list concatenation. -/
theorem escList_append (set : List Char) (a b : List Char) :
    escList set (a ++ b) = escList set a ++ escList set b := by
  induction a with
  | nil => rfl
  | cons c r ih => simp [escList, ih]

/-- Escaping distributes over string concatenation. -/
theorem escChars_append (set : List Char) (s t : String) :
    String.mk (escList set (s ++ t).data) =
      String.mk (escList set s.data) ++ String.mk (escList set t.data) := by
  cases s with
  | mk a =>
    cases t with
    | mk b =>
      show String.mk (escList set (a ++ b)) = String.mk (escList set a ++ escList set b)
      rw [escList_append]

/-- Escaping a single character prefixes it with a backslash exactly when
it belongs to the set. -/
theorem escChars_singleton (set : List Char) (c : Char) :
    String.mk (escList set [c]) =
      if c ∈ set then String.mk [backslashChar, c] else String.mk [c] := by
  by_cases h : c ∈ set <;> simp [escList, h]

/-- ToUint32 of an integer-valued number reduces modulo `2 ^ 32`. -/
theorem toUint32_intCast (n : ℤ) : toUint32 (JNum.fin (n : ℚ)) = (n % 2 ^ 32).toNat := by
  show (jtrunc (n : ℚ) % 2 ^ 32).toNat = (n % 2 ^ 32).toNat
  unfold jtrunc
  split
  · simp [Int.ceil_intCast]
  · simp [Int.floor_intCast]

/-- ToUint32 always lands below `2 ^ 32`. -/
theorem toUint32_lt (n : JNum) : toUint32 n < 2 ^ 32 := by
  cases n with
  | nan => decide
  | inf b =>
    show (0 : ℕ) < 2 ^ 32
    decide
  | fin q =>
    show (jtrunc q % 2 ^ 32).toNat < 2 ^ 32
    have h0 : (0 : ℤ) ≤ jtrunc q % 2 ^ 32 := Int.emod_nonneg _ (by norm_num)
    have h1 : jtrunc q % 2 ^ 32 < 2 ^ 32 := Int.emod_lt_of_pos _ (by norm_num)
    omega

/-- ToInt32 always lands in the signed 32-bit range. -/
theorem toInt32_range (n : JNum) : -2 ^ 31 ≤ toInt32 n ∧ toInt32 n < 2 ^ 31 := by
  unfold toInt32
  have := toUint32_lt n
  split <;> omega

/-- ToInt32 of a finite value: truncate, reduce modulo `2 ^ 32`, and shift
the upper half down into the signed range. -/
theorem toInt32_fin (q : ℚ) :
    toInt32 (JNum.fin q) =
      if jtrunc q % 2 ^ 32 < 2 ^ 31 then jtrunc q % 2 ^ 32
      else jtrunc q % 2 ^ 32 - 2 ^ 32 := by
  have h0 : (0 : ℤ) ≤ jtrunc q % 2 ^ 32 := Int.emod_nonneg _ (by norm_num)
  have h1 : jtrunc q % 2 ^ 32 < 2 ^ 32 := Int.emod_lt_of_pos _ (by norm_num)
  have hu : toUint32 (JNum.fin q) = (jtrunc q % 2 ^ 32).toNat := rfl
  unfold toInt32
  rw [hu]
  split
  · next h => rw [if_pos (by omega)]; omega
  · next h => rw [if_neg (by omega)]; omega

/-- The stream variant, hence its discriminant, depends only on the string
form of `codec_type`. -/
theorem toStream_kind_eq (i1 i2 : JSObj)
    (h : jsToString (prop i1 "codec_type") = jsToString (prop i2 "codec_type")) :
    (toStream i1).kind = (toStream i2).kind := by
  unfold toStream
  rw [h]
  by_cases h1 : jsToString (prop i2 "codec_type") = "video" <;>
    by_cases h2 : jsToString (prop i2 "codec_type") = "audio" <;>
      by_cases h3 : jsToString (prop i2 "codec_type") = "subtitle" <;>
        simp [h1, h2, h3, Stream.kind]

/-- Every stream variant carries the base fields built from its record. -/
theorem toStream_base (o : JSObj) : (toStream o).base = mkBaseFields o := by
  unfold toStream
  split
  · rfl
  · split
    · rfl
    · split
      · rfl
      · rfl

/-! ## Claim theorems -/

/-- Claim C1, counterexample: `parseTimestamp "01:02:03.5"` does not
return 62003500; it returns 3723500.  The claim's own rule (HH worth
3600000 ms, MM worth 60000 ms, SS worth 1000 ms, fraction value times
1000) yields 3723500, not the 62003500 the claim asserts. -/
theorem c1_counterexample :
    parseTimestamp "01:02:03.5" = some (JNum.fin 3723500) ∧
      JNum.fin 3723500 ≠ JNum.fin 62003500 := by
  constructor
  · decide
  · decide

/-- Claim C1 (amended): `parseTimestamp "01:02:03.5"` returns 3723500,
the value of the literal fraction-as-milliseconds rule: an optional
leading minus negates the result, HH is worth 3600000 ms, MM 60000 ms,
SS 1000 ms, and the fraction text `.5` is read as the number 0.5 and
multiplied by 1000. -/
theorem c1_parse_timestamp :
    parseTimestamp "01:02:03.5" =
      some (JNum.fin (1 * 3600000 + 2 * 60000 + 3 * 1000 + (5 / 10) * 1000 : ℚ)) ∧
    parseTimestamp "-01:02:03.5" = some (JNum.fin (-3723500)) ∧
    parseTimestamp "02:03.5" =
      some (JNum.fin (2 * 60000 + 3 * 1000 + (5 / 10) * 1000 : ℚ)) := by
  refine ⟨by decide, by decide, by decide⟩

/-- Claim C9: `parseTimestamp` returns the nullable absence exactly when
the regex finds no match anywhere in the input (it is a total function,
so it never throws); `"not-a-time"` is unmatched, and the absence is a
different value from a successful parse yielding 0 (such as `"00:00"`). -/
theorem c9_parse_timestamp_absence :
    (∀ s : String, parseTimestamp s = none ↔ searchTs s.data = none) ∧
      parseTimestamp "not-a-time" = none ∧
      parseTimestamp "00:00" = some (JNum.fin 0) ∧
      some (JNum.fin 0) ≠ (none : Option JNum) := by
  refine ⟨fun s => ?_, by decide, by decide, by decide⟩
  unfold parseTimestamp
  cases searchTs s.data <;> simp

/-- Witness for claim C9's theorem: the absence equivalence applied at
the concrete structurally-unmatched input. -/
theorem c9_parse_timestamp_absence_witness : parseTimestamp "not-a-time" = none :=
  (c9_parse_timestamp_absence.1 "not-a-time").mpr (by decide)

/-- Claim C5: the four escaping functions are total functions on strings
that prefix exactly the characters of their fixed sets with a single
backslash and leave every other character unchanged: they map the empty
string to itself, distribute over concatenation, and on a single
character act by the membership test against their respective sets
(filter-value: backslash, quote, colon; filter-description: backslash,
quote, brackets, comma, semicolon; concat-file: backslash, quote, space;
tee-component: backslash, quote, space, pipe, brackets). -/
theorem c5_escape_functions :
    (escapeFilterValue "" = "" ∧ escapeFilterDescription "" = "" ∧
      escapeConcatFile "" = "" ∧ escapeTeeComponent "" = "") ∧
    (∀ s t : String,
      escapeFilterValue (s ++ t) = escapeFilterValue s ++ escapeFilterValue t) ∧
    (∀ s t : String,
      escapeFilterDescription (s ++ t) =
        escapeFilterDescription s ++ escapeFilterDescription t) ∧
    (∀ s t : String,
      escapeConcatFile (s ++ t) = escapeConcatFile s ++ escapeConcatFile t) ∧
    (∀ s t : String,
      escapeTeeComponent (s ++ t) = escapeTeeComponent s ++ escapeTeeComponent t) ∧
    (∀ c : Char, escapeFilterValue (String.mk [c]) =
      if c ∈ [backslashChar, quoteChar, ':'] then String.mk [backslashChar, c]
      else String.mk [c]) ∧
    (∀ c : Char, escapeFilterDescription (String.mk [c]) =
      if c ∈ [backslashChar, quoteChar, '[', ']', ',', ';'] then String.mk [backslashChar, c]
      else String.mk [c]) ∧
    (∀ c : Char, escapeConcatFile (String.mk [c]) =
      if c ∈ [backslashChar, quoteChar, spaceChar] then String.mk [backslashChar, c]
      else String.mk [c]) ∧
    (∀ c : Char, escapeTeeComponent (String.mk [c]) =
      if c ∈ [backslashChar, quoteChar, spaceChar, '|', '[', ']'] then
        String.mk [backslashChar, c]
      else String.mk [c]) := by
  refine ⟨⟨rfl, rfl, rfl, rfl⟩,
    fun s t => escChars_append filterValueChars s t,
    fun s t => escChars_append filterDescriptionChars s t,
    fun s t => escChars_append concatFileChars s t,
    fun s t => escChars_append teeComponentChars s t,
    fun c => escChars_singleton filterValueChars c,
    fun c => escChars_singleton filterDescriptionChars c,
    fun c => escChars_singleton concatFileChars c,
    fun c => escChars_singleton teeComponentChars c⟩

/-- Claim C4: `stringifyFilterDescription` returns the name unchanged for
absent or null params and for an empty rendering, and otherwise appends
`=` and the filter-description-escaped rendering; within the rendering,
keys and the `=` joining key to value pass through unescaped (only each
value is filter-value-escaped, and `=` belongs to neither escape set), so
the `scale` example renders as `scale=w=100`. -/
theorem c4_stringify_filter_description :
    (∀ n : String,
      stringifyFilterDescription n .undef = n ∧ stringifyFilterDescription n .null = n) ∧
    (∀ (n : String) (l : List (String × JSVal)),
      stringifyFilterDescription n (.obj l) =
        if stringifyObjectColonSeparated l = "" then n
        else n ++ "=" ++ escapeFilterDescription (stringifyObjectColonSeparated l)) ∧
    (∀ (n : String) (a : List JSVal),
      stringifyFilterDescription n (.arr a) =
        if stringifyArrayColonSeparated a = "" then n
        else n ++ "=" ++ escapeFilterDescription (stringifyArrayColonSeparated a)) ∧
    (∀ l : List (String × JSVal),
      stringifyObjectColonSeparated l =
        String.intercalate ":" ((l.filter (fun kv => !(isNullish kv.2))).map
          (fun kv => kv.1 ++ "=" ++ escapeFilterValue (stringifyValue kv.2)))) ∧
    ('=' ∉ filterDescriptionChars ∧ '=' ∉ filterValueChars) ∧
    stringifyFilterDescription "scale"
      (.obj [("w", .num (.fin 100)), ("h", .null)]) = "scale=w=100" ∧
    stringifyFilterDescription "scale" (.obj []) = "scale" ∧
    stringifyFilterDescription "scale" .undef = "scale" := by
  refine ⟨fun n => ⟨rfl, rfl⟩, fun n l => rfl, fun n a => rfl, fun l => rfl,
    by decide, by decide, by decide, by decide⟩

/-- Claim C2, counterexample: a stream record with no `bit_rate` field
maps its bitrate to NaN (`Math.floor` of a NaN coercion), not to 0. -/
theorem c2_counterexample :
    (mkBaseFields []).bitrate = JNum.nan ∧ JNum.nan ≠ JNum.fin 0 := by
  constructor
  · decide
  · decide

/-- Claim C2 (amended): a stream or format record whose `bit_rate` is
absent or non-numeric maps its bitrate to NaN, because `int` is
`Math.floor` of the coercion and the floor of NaN is NaN; the fields
mapped with `>>> 0` (level, bits per raw sample) do map non-numeric
sources to 0; every generic-integer mapping is total (no error is ever
raised). -/
theorem c2_generic_int_fields :
    (∀ info : JSObj, (mkBaseFields info).bitrate = jfloor (toNumber (prop info "bit_rate"))) ∧
    (∀ info : ProbeInfo,
      (mkProbeResult info).bitrate = jfloor (toNumber (prop info.format "bit_rate"))) ∧
    (∀ v : JSVal, toNumber v = JNum.nan → int v = JNum.nan) ∧
    (∀ v : JSVal, toNumber v = JNum.nan → toUint32 (toNumber v) = 0) ∧
    (∀ info : JSObj,
      (mkVideoStream info).level = toUint32 (toNumber (prop info "level")) ∧
      (mkVideoStream info).bitsPerRawSample =
        toUint32 (toNumber (prop info "bits_per_raw_sample"))) ∧
    (mkBaseFields []).bitrate = JNum.nan ∧
    (mkVideoStream []).level = 0 ∧
    (mkVideoStream []).bitsPerRawSample = 0 ∧
    (mkProbeResult ⟨[], [], []⟩).bitrate = JNum.nan := by
  refine ⟨fun info => rfl, fun info => rfl, fun v h => ?_, fun v h => ?_,
    fun info => ⟨rfl, rfl⟩, by decide, by decide, by decide, by decide⟩
  · unfold int
    rw [h]
    rfl
  · rw [h]
    rfl

/-- Witness for claim C2's amended theorem at the concrete non-numeric
source `undefined`. -/
theorem c2_generic_int_fields_witness :
    toNumber JSVal.undef = JNum.nan ∧ int JSVal.undef = JNum.nan :=
  ⟨rfl, c2_generic_int_fields.2.2.1 JSVal.undef rfl⟩

/-- Claim C3, counterexample: the `ProbeResult` built from a record whose
format object is empty has a bitrate of NaN, which is not a finite
number. -/
theorem c3_counterexample :
    (mkProbeResult ⟨[], [], []⟩).bitrate = JNum.nan ∧ JNum.nan.isFinite = false := by
  constructor
  · decide
  · decide

/-- Claim C3 (amended): constructing a `ProbeResult` is total (never an
error) and every numeric field is a number; the fields mapped through the
32-bit coercions (index, start, duration, score, level, sample data,
chapter id and times) are finite integers in their 32-bit ranges, but the
fields mapped through `Math.floor` of the coercion (bitrate and the video
dimensions) equal that floor and are NaN when the source is non-numeric,
and the fraction fields follow the `f64` rule (-1, a quotient, a signed
infinity, or NaN). -/
theorem c3_numeric_fields :
    (∀ info : ProbeInfo,
      (-2 ^ 31 ≤ (mkProbeResult info).start ∧ (mkProbeResult info).start < 2 ^ 31) ∧
      (-2 ^ 31 ≤ (mkProbeResult info).duration ∧ (mkProbeResult info).duration < 2 ^ 31) ∧
      (-2 ^ 31 ≤ (mkProbeResult info).score ∧ (mkProbeResult info).score < 2 ^ 31) ∧
      (mkProbeResult info).bitrate = jfloor (toNumber (prop info.format "bit_rate"))) ∧
    (∀ o : JSObj,
      (toStream o).base.index < 2 ^ 32 ∧
      (-2 ^ 31 ≤ (toStream o).base.start ∧ (toStream o).base.start < 2 ^ 31) ∧
      (-2 ^ 31 ≤ (toStream o).base.duration ∧ (toStream o).base.duration < 2 ^ 31) ∧
      (toStream o).base.bitrate = jfloor (toNumber (prop o "bit_rate"))) ∧
    (∀ o : JSObj,
      (mkVideoStream o).level < 2 ^ 32 ∧
      (mkVideoStream o).bitsPerRawSample < 2 ^ 32 ∧
      (mkVideoStream o).width = jfloor (toNumber (prop o "width")) ∧
      (mkVideoStream o).frameRate = f64 (prop o "frame_rate")) ∧
    (∀ o : JSObj,
      (mkChapter o).id < 2 ^ 32 ∧
      (-2 ^ 31 ≤ (mkChapter o).start ∧ (mkChapter o).start < 2 ^ 31) ∧
      (-2 ^ 31 ≤ (mkChapter o).endTime ∧ (mkChapter o).endTime < 2 ^ 31)) ∧
    (∀ q : ℚ, (jfloor (JNum.fin q)).isFinite = true) ∧
    jfloor JNum.nan = JNum.nan ∧
    JNum.nan.isFinite = false ∧
    (mkProbeResult ⟨[], [], []⟩).bitrate = JNum.nan := by
  refine ⟨fun info => ⟨toInt32_range _, toInt32_range _, toInt32_range _, rfl⟩,
    fun o => ?_, fun o => ⟨toUint32_lt _, toUint32_lt _, rfl, rfl⟩,
    fun o => ⟨toUint32_lt _, toInt32_range _, toInt32_range _⟩,
    fun q => rfl, rfl, rfl, by decide⟩
  rw [toStream_base o]
  exact ⟨toUint32_lt _, toInt32_range _, toInt32_range _, rfl⟩

/-- Claim C6: the fraction fields `frameRate` and `avgFrameRate` are
`f64` of their source field, and `f64` coerces the source to text, splits
on `/`, yields -1 when either part is missing (or empty, which the
source's falsiness test treats the same way) or parses to NaN, and
otherwise yields the floating-point quotient: a signed infinity when the
denominator is 0 and the numerator nonzero, NaN for 0/0. -/
theorem c6_fraction_fields :
    (∀ info : JSObj,
      (mkVideoStream info).frameRate = f64 (prop info "frame_rate") ∧
      (mkVideoStream info).avgFrameRate = f64 (prop info "avg_frame_rate")) ∧
    (∀ v : JSVal,
      f64 v =
        (let parts := splitSlash (jsToString v).data
         let x := parts.getD 0 []
         let y := parts.getD 1 []
         if x = [] ∨ y = [] then JNum.fin (-1)
         else if parseNumChars x = JNum.nan ∨ parseNumChars y = JNum.nan then JNum.fin (-1)
         else jdiv (parseNumChars x) (parseNumChars y))) ∧
    f64 (JSVal.str "1/0") = JNum.inf false ∧
    f64 (JSVal.str "-1/0") = JNum.inf true ∧
    f64 (JSVal.str "0/0") = JNum.nan ∧
    f64 JSVal.undef = JNum.fin (-1) ∧
    f64 (JSVal.str "30000/1001") = JNum.fin (30000 / 1001) ∧
    f64 (JSVal.str "abc/5") = JNum.fin (-1) ∧
    f64 (JSVal.str "") = JNum.fin (-1) := by
  refine ⟨fun info => ⟨rfl, rfl⟩, fun v => rfl, by decide, by decide, by decide, by decide,
    by decide, by decide, by decide⟩

/-- Claim C7: stream variant selection reads only the string coercion of
`codec_type` — exactly `"video"`, `"audio"` and `"subtitle"` select their
variants and anything else (including an absent field or different
casing) selects the data variant — and a record carrying only
`codec_type: "video"` yields a `VideoStream` whose frame rate is -1 and
whose start and duration are 0. -/
theorem c7_stream_dispatch :
    (∀ info : JSObj, toStream info =
      (if jsToString (prop info "codec_type") = "video" then .videoV (mkVideoStream info)
       else if jsToString (prop info "codec_type") = "audio" then .audioV (mkAudioStream info)
       else if jsToString (prop info "codec_type") = "subtitle" then
         .subtitleV (mkSubtitleStream info)
       else .dataV (mkDataStream info))) ∧
    (∀ i1 i2 : JSObj,
      jsToString (prop i1 "codec_type") = jsToString (prop i2 "codec_type") →
        (toStream i1).kind = (toStream i2).kind) ∧
    toStream [("codec_type", JSVal.str "video")] =
      .videoV (mkVideoStream [("codec_type", JSVal.str "video")]) ∧
    (mkVideoStream [("codec_type", JSVal.str "video")]).frameRate = JNum.fin (-1) ∧
    (mkVideoStream [("codec_type", JSVal.str "video")]).base.start = 0 ∧
    (mkVideoStream [("codec_type", JSVal.str "video")]).base.duration = 0 ∧
    (toStream [("codec_type", JSVal.str "audio")]).kind = "audio" ∧
    (toStream [("codec_type", JSVal.str "subtitle")]).kind = "subtitle" ∧
    (toStream []).kind = "data" ∧
    (toStream [("codec_type", JSVal.str "Video")]).kind = "data" := by
  refine ⟨fun info => rfl, fun i1 i2 h => toStream_kind_eq i1 i2 h, by decide, by decide,
    by decide, by decide, by decide, by decide, by decide, by decide⟩

/-- Witness for claim C7's theorem: the kind-depends-only-on-codec-type
conjunct applied to two concrete records that share the `codec_type`
text. -/
theorem c7_stream_dispatch_witness :
    (toStream [("codec_type", JSVal.str "audio")]).kind =
      (toStream [("codec_type", JSVal.str "audio"), ("index", JSVal.num (JNum.fin 3))]).kind :=
  c7_stream_dispatch.2.1 [("codec_type", JSVal.str "audio")]
    [("codec_type", JSVal.str "audio"), ("index", JSVal.num (JNum.fin 3))] rfl

/-- Claim C8: the non-negative-integer fields (stream index, sample rate,
channels, bits per sample, bits per raw sample, chapter id, level) are
the ToUint32 coercion of their source: an integer source is reduced
modulo `2 ^ 32` (so negative or out-of-range values wrap), a fractional
source truncates first, a non-numeric source (NaN coercion) becomes 0,
and the result always lies below `2 ^ 32`. -/
theorem c8_uint32_fields :
    (∀ info : JSObj, (mkBaseFields info).index = toUint32 (toNumber (prop info "index"))) ∧
    (∀ info : JSObj,
      (mkAudioStream info).sampleRate = toUint32 (toNumber (prop info "sample_rate")) ∧
      (mkAudioStream info).channels = toUint32 (toNumber (prop info "channels")) ∧
      (mkAudioStream info).bitsPerSample =
        toUint32 (toNumber (prop info "bits_per_sample"))) ∧
    (∀ info : JSObj,
      (mkVideoStream info).level = toUint32 (toNumber (prop info "level")) ∧
      (mkVideoStream info).bitsPerRawSample =
        toUint32 (toNumber (prop info "bits_per_raw_sample"))) ∧
    (∀ info : JSObj, (mkChapter info).id = toUint32 (toNumber (prop info "id"))) ∧
    (∀ n : ℤ, toUint32 (JNum.fin (n : ℚ)) = (n % 2 ^ 32).toNat) ∧
    (∀ n : JNum, toUint32 n < 2 ^ 32) ∧
    toUint32 JNum.nan = 0 ∧
    (mkBaseFields [("index", JSVal.str "foo")]).index = 0 ∧
    (mkBaseFields [("index", JSVal.num (JNum.fin (-1)))]).index = 4294967295 ∧
    (mkBaseFields [("index", JSVal.num (JNum.fin (2 ^ 32 + 5)))]).index = 5 ∧
    toUint32 (JNum.fin (7 / 2)) = 3 := by
  refine ⟨fun info => rfl, fun info => ⟨rfl, rfl, rfl⟩, fun info => ⟨rfl, rfl⟩,
    fun info => rfl, fun n => toUint32_intCast n, fun n => toUint32_lt n, rfl,
    by decide, by decide, by decide, by decide⟩

/-- Claim C10: chapter start and end are the source value times 1000000
passed through ToInt32 (`| 0`): the truncated product is reduced modulo
`2 ^ 32` into the signed 32-bit range, so a source beyond about 2147.48
seconds wraps and can come out negative (3000 s wraps to -1294967296 µs),
and a non-numeric source becomes 0. -/
theorem c10_chapter_times :
    (∀ info : JSObj,
      (mkChapter info).start =
        toInt32 (jmul (toNumber (prop info "start")) (JNum.fin 1000000)) ∧
      (mkChapter info).endTime =
        toInt32 (jmul (toNumber (prop info "end")) (JNum.fin 1000000))) ∧
    (∀ q : ℚ,
      toInt32 (jmul (JNum.fin q) (JNum.fin 1000000)) =
        if jtrunc (q * 1000000) % 2 ^ 32 < 2 ^ 31 then jtrunc (q * 1000000) % 2 ^ 32
        else jtrunc (q * 1000000) % 2 ^ 32 - 2 ^ 32) ∧
    (∀ v : JSVal, toNumber v = JNum.nan →
      toInt32 (jmul (toNumber v) (JNum.fin 1000000)) = 0) ∧
    (∀ info : JSObj,
      -2 ^ 31 ≤ (mkChapter info).start ∧ (mkChapter info).start < 2 ^ 31) ∧
    (mkChapter [("start", JSVal.num (JNum.fin 3000))]).start = -1294967296 ∧
    (mkChapter [("start", JSVal.str "abc")]).start = 0 := by
  refine ⟨fun info => ⟨rfl, rfl⟩, fun q => toInt32_fin (q * 1000000), fun v h => ?_,
    fun info => toInt32_range _, by decide, by decide⟩
  rw [h]
  decide

/-- Witness for claim C10's theorem at the concrete non-numeric source
`undefined`. -/
theorem c10_chapter_times_witness :
    toNumber JSVal.undef = JNum.nan ∧
      toInt32 (jmul (toNumber JSVal.undef) (JNum.fin 1000000)) = 0 :=
  ⟨rfl, c10_chapter_times.2.2.1 JSVal.undef rfl⟩

end EloquentFFmpeg
